import Mathlib

/-!
Verification of the `ipc-chan` crate: a typed, synchronous IPC channel
(`Source`/`Sink` endpoints over a request-reply transport) plus a TOML
config module with an ancestor/home-directory resolution algorithm.

The transport (zmq) and the codecs (serde_json, toml) are external
collaborators; they are modelled abstractly (a `Codec` record, an
explicit frame queue for the socket), while all logic of the crate
itself (`src/lib.rs`, `src/config.rs`, `src/error.rs`) is embedded
faithfully as executable Lean definitions.
-/

namespace IpcChan

/-- Raw bytes of a payload, as in `Vec<u8>`. -/
abbrev Bytes := List Nat

/-- The error taxonomy of `src/error.rs`.  Payloads of external error
types (`std::io::Error`, `serde_json::Error`, `toml::de::Error`,
`toml::ser::Error`, `zmq::Error`) are modelled as strings; the
`NotUtf8Error` variant carries the offending raw bytes, as in the source. -/
inductive Error where
  | IoError (msg : String)
  | JsonError (msg : String)
  | NotUtf8Error (bytes : Bytes)
  | TomlDeserializeError (msg : String)
  | TomlSerializeError (msg : String)
  | ZmqError (msg : String)
deriving DecidableEq, Repr

/-- A single transport frame.  zmq's `recv_string` yields `Ok(String)`
when the received bytes are valid UTF-8 and `Err(Vec<u8>)` otherwise;
a frame on the modelled wire is accordingly either text or raw bytes. -/
inductive Frame where
  | text (s : String)
  | raw (bytes : Bytes)
deriving DecidableEq, Repr

/-- A transport socket: the queue of frames waiting to be received and
the list of frames sent so far (most recent last). -/
structure Socket where
  inbox : List Frame
  sent : List Frame
deriving DecidableEq, Repr

/-- A fresh socket as produced by `ctx.socket(...)`. -/
def Socket.new : Socket := { inbox := [], sent := [] }

/-- The external structured-data codec (serde_json) at a type `V`:
`encode` is `serde_json::to_string` (fallible), `decode` is
`serde_json::from_str` (fallible).  Error payloads are strings. -/
structure Codec (V : Type) where
  encode : V → Except String String
  decode : String → Except String V

/-- The acknowledgment token `ACK` of `src/lib.rs`. -/
def ACK : String := "K"

/-- `imp::send`: serialize `value` with the codec and transmit the
resulting text as one frame.  Encoding failure surfaces as
`Error::JsonError`; the frame is appended to the socket's sent queue. -/
def impSend {V : Type} (c : Codec V) (socket : Socket) (value : V) :
    Except Error Unit × Socket :=
  match c.encode value with
  | .error e => (.error (.JsonError e), socket)
  | .ok s => (.ok (), { socket with sent := socket.sent ++ [.text s] })

/-- `imp::recv`: block until a frame arrives (`none` models blocking
forever on an empty inbox), then decode.  A non-UTF-8 frame yields
`Error::NotUtf8Error` carrying the raw bytes; a text frame is decoded
with the codec, a decode failure yielding `Error::JsonError`.  The
frame is consumed from the inbox in every returning case. -/
def impRecv {V : Type} (c : Codec V) (socket : Socket) :
    Option (Except Error V × Socket) :=
  match socket.inbox with
  | [] => none
  | .text s :: rest =>
    match c.decode s with
    | .ok v => some (.ok v, { socket with inbox := rest })
    | .error e => some (.error (.JsonError e), { socket with inbox := rest })
  | .raw bytes :: rest =>
    some (.error (.NotUtf8Error bytes), { socket with inbox := rest })

/-- The `Config` struct of `src/config.rs` (`host: String, port: usize`). -/
structure Config where
  host : String
  port : Nat
deriving DecidableEq, Repr

/-- `Config::default()`: host `"127.0.0.1"`, port `10001`. -/
def Config.default : Config := { host := "127.0.0.1", port := 10001 }

/-- The `Source` endpoint state: its socket and the config it was
constructed from (the zmq context handle carries no further state in
the model). -/
structure SourceState where
  socket : Socket
  cfg : Config
deriving DecidableEq, Repr

/-- `Source::from_config`: create context and REQ socket, connect, and
store the config (transport-level connect failures are external). -/
def SourceState.from_config (cfg : Config) : SourceState :=
  { socket := Socket.new, cfg := cfg }

/-- `Source::config`. -/
def SourceState.config (s : SourceState) : Config := s.cfg

/-- Outcome of a `Source::send` call: success, a typed error, or a
panic raised by the `debug_assert_eq!(reply, ACK)` check. -/
inductive SendOutcome where
  | ok
  | err (e : Error)
  | panicked
deriving DecidableEq, Repr

/-- `Source::send`: serialize and transmit `value` as one request
frame, then block for the reply frame and decode it as a `String`.
With debug assertions enabled (`debugAssertions = true`) the reply is
checked against `ACK` and a mismatch panics; with them disabled any
decoded reply is accepted.  `none` models blocking forever for a
reply that never arrives. -/
def SourceState.send {V : Type} (cV : Codec V) (cS : Codec String)
    (debugAssertions : Bool) (st : SourceState) (value : V) :
    Option (SendOutcome × SourceState) :=
  match impSend cV st.socket value with
  | (.error e, sock) => some (.err e, { st with socket := sock })
  | (.ok _, sock) =>
    match impRecv cS sock with
    | none => none
    | some (.error e, sock2) => some (.err e, { st with socket := sock2 })
    | some (.ok reply, sock2) =>
      if debugAssertions && reply ≠ ACK then
        some (.panicked, { st with socket := sock2 })
      else
        some (.ok, { st with socket := sock2 })

/-- The `Sink` endpoint state. -/
structure SinkState where
  socket : Socket
  cfg : Config
deriving DecidableEq, Repr

/-- `Sink::from_config`: create context and REP socket, bind, and
store the config. -/
def SinkState.from_config (cfg : Config) : SinkState :=
  { socket := Socket.new, cfg := cfg }

/-- `Sink::config`. -/
def SinkState.config (s : SinkState) : Config := s.cfg

/-- `Sink::recv`: block for a request frame, decode it as `V`; on
success transmit the serialized `ACK` token as the reply and return
the decoded value.  Any receive or decode error is returned before
the ack is sent.  `none` models blocking forever on an empty inbox. -/
def SinkState.recv {V : Type} (cV : Codec V) (cS : Codec String)
    (st : SinkState) : Option (Except Error V × SinkState) :=
  match impRecv cV st.socket with
  | none => none
  | some (.error e, sock) => some (.error e, { st with socket := sock })
  | some (.ok v, sock) =>
    match impSend cS sock ACK with
    | (.error e, sock2) => some (.error e, { st with socket := sock2 })
    | (.ok _, sock2) => some (.ok v, { st with socket := sock2 })

/-! ## Config module: paths, filesystem model, resolution algorithm -/

/-- A filesystem path, modelled as an absolute/relative flag and a
list of normal components (the claims involve no `.` or `..`
components).  `⟨false, []⟩` is the empty path `""`, `⟨true, []⟩` is
the root `/`. -/
structure RPath where
  absolute : Bool
  comps : List String
deriving DecidableEq, Repr

/-- `Path::parent`: drop the last component.  `""` and `/` have no
parent (`None`); a bare filename's parent is the empty path `""`. -/
def RPath.parent (p : RPath) : Option RPath :=
  match p.comps with
  | [] => none
  | _ :: _ => some { p with comps := p.comps.dropLast }

/-- `Path::file_name`: the final component, when there is one. -/
def RPath.fileName (p : RPath) : Option String :=
  p.comps.getLast?

/-- `Path::join` with a single normal component. -/
def RPath.join (p : RPath) (c : String) : RPath :=
  { p with comps := p.comps ++ [c] }

/-- The filesystem state the config module runs against: the current
working directory, the optional home directory (`dirs::home_dir`),
the set of existing directories and the existing regular files with
their text contents (all keyed by absolute component lists). -/
structure Fs where
  cwd : List String
  home : Option (List String)
  dirs : List (List String)
  files : List (List String × String)
deriving DecidableEq, Repr

/-- Resolve a path to absolute components against the current working
directory, as the OS does for relative paths. -/
def Fs.resolve (fs : Fs) (p : RPath) : List String :=
  if p.absolute then p.comps else fs.cwd ++ p.comps

/-- Contents of the regular file at absolute components `a`, if any. -/
def Fs.lookupFile (fs : Fs) (a : List String) : Option String :=
  (fs.files.find? (fun e => e.1 = a)).map (·.2)

/-- `Path::exists`: the empty relative path does not exist; otherwise
the resolved path must be an existing directory or regular file. -/
def Fs.pathExists (fs : Fs) (p : RPath) : Bool :=
  if !p.absolute && p.comps = [] then false
  else
    let a := fs.resolve p
    fs.dirs.contains a || (fs.lookupFile a).isSome

/-- Store `contents` at the absolute components `a`, replacing any
previous file there. -/
def Fs.setFile (fs : Fs) (a : List String) (contents : String) : Fs :=
  { fs with files := (a, contents) :: fs.files.filter (fun e => e.1 ≠ a) }

/-- Result of the ancestor-walk `while` loop in
`Config::find_in_ancestor_or_home_dir`: a candidate was found and
returned from inside the loop; the `?` on `b.parent()` fired,
returning `None` from the whole function; or the loop ran out of
ancestors, leaving `buf = None` for the home-directory fallback. -/
inductive WalkResult where
  | found (p : RPath)
  | abort
  | exhausted
deriving DecidableEq, Repr

/-- The `while let Some(b) = buf` loop of
`Config::find_in_ancestor_or_home_dir`, entered with `buf = some b`:
take the parent of `b` (no parent aborts the whole function via `?`),
then its parent `gp`; when `gp` exists the next candidate is
`gp.join(file_name)`, returned as soon as it exists; when no
grandparent exists (or it does not exist on disk) the walk is
exhausted. -/
def walkLoop (fs : Fs) (fileName : String) (b : RPath) : WalkResult :=
  match hp : b.parent with
  | none => .abort
  | some parent =>
    match hg : parent.parent with
    | none => .exhausted
    | some gp =>
      if fs.pathExists gp then
        let buf := gp.join fileName
        if fs.pathExists buf then .found buf
        else walkLoop fs fileName buf
      else .exhausted
termination_by b.comps.length
decreasing_by
  simp only [RPath.parent] at hp hg
  split at hp
  · exact absurd hp (by simp)
  · rename_i hb
    cases hp
    split at hg
    · exact absurd hg (by simp)
    · rename_i hcons
      cases hg
      simp only at hcons
      have hb' : b.comps ≠ [] := by simp [hb]
      have hd' : b.comps.dropLast ≠ [] := by simp [hcons]
      simp only [RPath.join, List.length_append, List.length_dropLast,
        List.length_cons, List.length_nil]
      have h1 : 1 ≤ b.comps.length := List.length_pos.mpr hb'
      have h2 : 1 ≤ b.comps.dropLast.length := List.length_pos.mpr hd'
      have h3 : b.comps.dropLast.length = b.comps.length - 1 :=
        List.length_dropLast _
      omega

/-- `Config::find_in_ancestor_or_home_dir`: if the path exists as
given, use it; otherwise walk the ancestors of the path (starting
from the current working directory joined with the filename when the
path was a bare filename), and finally fall back to
`home_directory/file_name`.  Returns `none` when the file is found
nowhere. -/
def find_in_ancestor_or_home_dir (fs : Fs) (path : RPath) : Option RPath :=
  if fs.pathExists path then some path
  else
    match path.fileName with
    | none => none
    | some fileName =>
      let buf0 : RPath :=
        if path.parent = some ⟨false, []⟩ then
          RPath.join ⟨true, fs.cwd⟩ fileName
        else path
      match walkLoop fs fileName buf0 with
      | .found p => some p
      | .abort => none
      | .exhausted =>
        match fs.home with
        | none => none
        | some h =>
          let buf := RPath.join ⟨true, h⟩ fileName
          if fs.pathExists buf then some buf else none

/-- The external TOML codec for `Config` (`toml::from_str` /
`toml::to_string_pretty`): an external collaborator, modelled
abstractly. -/
structure TomlCodec where
  encode : Config → Except String String
  decode : String → Except String Config

/-- `Config::parse_toml`: resolve the path via the ancestor/home
search — a failed search is propagated as `Error::IoError`
(not-found) by the `?` operator; a successful search opens the file
and decodes it, the unopenable-file branch returning the default
config. -/
def parse_toml (tc : TomlCodec) (fs : Fs) (path : RPath) : Except Error Config :=
  match find_in_ancestor_or_home_dir fs path with
  | none => .error (.IoError "NotFound: TOML file")
  | some p =>
    match fs.lookupFile (fs.resolve p) with
    | some contents =>
      match tc.decode contents with
      | .ok cfg => .ok cfg
      | .error e => .error (.TomlDeserializeError e)
    | none => .ok Config.default

/-- The `OverwritePolicy` enum of `src/config.rs`. -/
inductive OverwritePolicy where
  | DontOverwrite
  | Overwrite
deriving DecidableEq, Repr

/-- `Config::write_toml`: `File::create` first creates or truncates
the destination (modelled by storing empty contents), then the policy
is matched — `DontOverwrite` with `toml_path.exists()` (checked after
the create) is a no-op, every other case encodes the config and
writes the payload bytes. -/
def write_toml (tc : TomlCodec) (fs : Fs) (cfg : Config) (path : RPath)
    (policy : OverwritePolicy) : Except Error Unit × Fs :=
  let a := fs.resolve path
  let fs1 := fs.setFile a ""
  match policy, fs1.pathExists path with
  | .DontOverwrite, true => (.ok (), fs1)
  | .DontOverwrite, false | .Overwrite, _ =>
    match tc.encode cfg with
    | .error e => (.error (.TomlSerializeError e), fs1)
    | .ok contents => (.ok (), fs1.setFile a contents)

/-! ## Concrete instances and iterated calls -/

/-- Parse a decimal digit list into a number, accumulator style;
`none` as soon as a non-digit character appears. -/
def parseDecimal : List Char → Nat → Option Nat
  | [], acc => some acc
  | c :: cs, acc =>
    if c.isDigit then parseDecimal cs (acc * 10 + (c.toNat - 48))
    else none

/-- A concrete serde_json-style codec at type `Nat`, used to
instantiate the abstract codec in witnesses. -/
def natCodecW : Codec Nat :=
  { encode := fun n => .ok (toString n),
    decode := fun s =>
      match s.data with
      | [] => .error "invalid number"
      | c :: cs =>
        match parseDecimal (c :: cs) 0 with
        | some n => .ok n
        | none => .error "invalid number" }

/-- A concrete codec at type `String`, used to instantiate the
abstract reply codec in witnesses. -/
def strCodecW : Codec String :=
  { encode := fun s => .ok s, decode := fun s => .ok s }

/-- A concrete TOML codec for `Config`, used in witnesses. -/
def tomlCodecW : TomlCodec :=
  { encode := fun c =>
      .ok ("host = \"" ++ c.host ++ "\"\nport = " ++ toString c.port ++ "\n"),
    decode := fun _ => .error "decode unused" }

/-- A filesystem whose only regular file is the target filename `F`
placed in the direct parent `/a/b` of the working directory `/a/b/c`. -/
def fsParentOnly : Fs :=
  { cwd := ["a", "b", "c"], home := none,
    dirs := [[], ["a"], ["a", "b"], ["a", "b", "c"]],
    files := [(["a", "b", "F"], "x")] }

/-- A filesystem whose only regular file is the target filename `F`
placed in the grandparent `/a` of the working directory `/a/b/c`. -/
def fsGrandparentOnly : Fs :=
  { cwd := ["a", "b", "c"], home := none,
    dirs := [[], ["a"], ["a", "b"], ["a", "b", "c"]],
    files := [(["a", "F"], "x")] }

/-- A filesystem with no regular files at all: the target filename
exists nowhere (not as given, in no ancestor, not in the home dir). -/
def fsNoFiles : Fs :=
  { cwd := ["a", "b", "c"], home := some ["home", "u"],
    dirs := [[], ["a"], ["a", "b"], ["a", "b", "c"], ["home"], ["home", "u"]],
    files := [] }

/-- A filesystem holding a pre-existing config file with contents
`"old"` at `/w/cfg.toml`. -/
def fsOldConfig : Fs :=
  { cwd := ["w"], home := none,
    dirs := [[], ["w"]],
    files := [(["w", "cfg.toml"], "old")] }

/-- Iterate `Source::send` over a list of values, threading the
endpoint state; `none` as soon as one call blocks forever. -/
def SourceState.sendSeq {V : Type} (cV : Codec V) (cS : Codec String)
    (debugAssertions : Bool) : SourceState → List V → Option SourceState
  | st, [] => some st
  | st, v :: vs =>
    match SourceState.send cV cS debugAssertions st v with
    | none => none
    | some (_, st') => SourceState.sendSeq cV cS debugAssertions st' vs

/-- Iterate `Sink::recv` `n` times, threading the endpoint state;
`none` as soon as one call blocks forever. -/
def SinkState.recvSeq {V : Type} (cV : Codec V) (cS : Codec String) :
    SinkState → Nat → Option SinkState
  | st, 0 => some st
  | st, n + 1 =>
    match SinkState.recv cV cS st with
    | none => none
    | some (_, st') => SinkState.recvSeq cV cS st' n

/-! ## Theorems about the messaging layer -/

/-- Claim C1: for every serializable value `v` (one the codec encodes
successfully and decodes back to itself, the serde_json contract), a
`Source::send(v)` followed by `Sink::recv` yields a received value
equal to `v`: the sender transmits the single encoded frame, the sink
decodes it back to `v`, acknowledges, and the source completes
successfully on that acknowledgment. -/
theorem c1_send_recv_round_trip {V : Type} (cV : Codec V) (cS : Codec String)
    (v : V) (s es : String) (da : Bool) (sock : Socket)
    (rest p q : List Frame) (c c2 : Config)
    (hencV : cV.encode v = .ok s) (hdecV : cV.decode s = .ok v)
    (hencS : cS.encode ACK = .ok es) (hdecS : cS.decode es = .ok ACK) :
    impSend cV sock v = (.ok (), { sock with sent := sock.sent ++ [.text s] })
    ∧ SinkState.recv cV cS
        { socket := { inbox := Frame.text s :: rest, sent := q }, cfg := c }
      = some (.ok v,
        { socket := { inbox := rest, sent := q ++ [.text es] }, cfg := c })
    ∧ SourceState.send cV cS da
        { socket := { inbox := [Frame.text es], sent := p }, cfg := c2 } v
      = some (.ok,
        { socket := { inbox := [], sent := p ++ [.text s] }, cfg := c2 }) := by
  refine ⟨?_, ?_, ?_⟩
  · simp [impSend, hencV]
  · simp [SinkState.recv, impRecv, impSend, hdecV, hencS]
  · simp [SourceState.send, impSend, impRecv, hencV, hdecS]

theorem c1_send_recv_round_trip_witness :
    impSend natCodecW { inbox := [], sent := [] } 42
      = (.ok (), { inbox := [], sent := [Frame.text "42"] })
    ∧ SinkState.recv natCodecW strCodecW
        { socket := { inbox := [Frame.text "42"], sent := [] },
          cfg := Config.default }
      = some (.ok 42,
        { socket := { inbox := [], sent := [Frame.text "K"] },
          cfg := Config.default })
    ∧ SourceState.send natCodecW strCodecW true
        { socket := { inbox := [Frame.text "K"], sent := [] },
          cfg := Config.default } 42
      = some (.ok,
        { socket := { inbox := [], sent := [Frame.text "42"] },
          cfg := Config.default }) :=
  c1_send_recv_round_trip natCodecW strCodecW 42 "42" "K" true
    { inbox := [], sent := [] } [] [] [] Config.default Config.default
    rfl rfl rfl rfl

/-- Claim C2 counterexample: with debug assertions disabled (a release
build), `Source::send` returns success even though the reply text it
observed is `"X"`, which differs from the acknowledgment token `"K"`:
the `debug_assert_eq!(reply, ACK)` check is compiled out, so a reply
different from the token is still accepted as success. -/
theorem c2_release_accepts_any_reply :
    strCodecW.decode "X" = .ok "X"
    ∧ ("X" : String) ≠ ACK
    ∧ SourceState.send natCodecW strCodecW false
        { socket := { inbox := [Frame.text "X"], sent := [] },
          cfg := Config.default } 7
      = some (.ok,
        { socket := { inbox := [], sent := [Frame.text "7"] },
          cfg := Config.default }) := by
  refine ⟨rfl, by decide, rfl⟩

/-- Claim C2 (amended): with debug assertions enabled, if
`Source::send` returns success then the reply text it observed equals
the acknowledgment token `"K"`; a reply text different from `"K"`
makes the call panic on `debug_assert_eq!` instead of returning
success.  (With debug assertions disabled the code accepts any
decodable reply, per the counterexample.) -/
theorem c2_ack_contract_debug_assertions {V : Type} (cV : Codec V)
    (cS : Codec String) (st : SourceState) (v : V) (r : String)
    (rest : List Frame) (reply : String)
    (hinbox : st.socket.inbox = Frame.text r :: rest)
    (hdec : cS.decode r = .ok reply) :
    (∀ st', SourceState.send cV cS true st v = some (.ok, st') → reply = ACK)
    ∧ (reply ≠ ACK → ∀ s, cV.encode v = .ok s →
        SourceState.send cV cS true st v
          = some (.panicked,
            { st with socket :=
              { inbox := rest, sent := st.socket.sent ++ [.text s] } })) := by
  constructor
  · intro st' h
    cases he : cV.encode v with
    | error e => simp [SourceState.send, impSend, he] at h
    | ok s =>
      by_cases hr : reply = ACK
      · exact hr
      · simp [SourceState.send, impSend, impRecv, he, hinbox, hdec, hr] at h
  · intro hne s hs
    simp [SourceState.send, impSend, impRecv, hs, hinbox, hdec, hne]

theorem c2_ack_contract_debug_assertions_witness :
    SourceState.send natCodecW strCodecW true
      { socket := { inbox := [Frame.text "X"], sent := [] },
        cfg := Config.default } 7
    = some (.panicked,
      { socket := { inbox := [], sent := [Frame.text "7"] },
        cfg := Config.default }) :=
  (c2_ack_contract_debug_assertions natCodecW strCodecW
    { socket := { inbox := [Frame.text "X"], sent := [] },
      cfg := Config.default } 7 "X" [] "X" rfl rfl).2 (by decide) "7" rfl

/-- Claim C7: for every incoming request frame that decodes
successfully as `V`, `Sink::recv` transmits the serialization of the
literal acknowledgment token `ACK = "K"` as its only reply frame and
returns the decoded value. -/
theorem c7_recv_acks_and_returns_value {V : Type} (cV : Codec V)
    (cS : Codec String) (s es : String) (rest q : List Frame) (c : Config)
    (v : V) (hdec : cV.decode s = .ok v) (henc : cS.encode ACK = .ok es) :
    ACK = "K"
    ∧ SinkState.recv cV cS
        { socket := { inbox := Frame.text s :: rest, sent := q }, cfg := c }
      = some (.ok v,
        { socket := { inbox := rest, sent := q ++ [Frame.text es] },
          cfg := c }) :=
  ⟨rfl, by simp [SinkState.recv, impRecv, impSend, hdec, henc]⟩

theorem c7_recv_acks_and_returns_value_witness :
    ACK = "K"
    ∧ SinkState.recv natCodecW strCodecW
        { socket := { inbox := [Frame.text "42"], sent := [] },
          cfg := Config.default }
      = some (.ok 42,
        { socket := { inbox := [], sent := [Frame.text "K"] },
          cfg := Config.default }) :=
  c7_recv_acks_and_returns_value natCodecW strCodecW "42" "K" [] []
    Config.default 42 rfl rfl

/-- Claim C8: a received frame whose bytes are not valid UTF-8 makes
the shared receive operation `imp::recv` fail with
`Error::NotUtf8Error` carrying exactly the offending bytes, and both
`Sink::recv` (receiving a request) and `Source::send` (awaiting its
reply) propagate that same error. -/
theorem c8_non_utf8_frame_error {V : Type} (cV : Codec V) (cS : Codec String)
    (bytes : Bytes) (rest q : List Frame) (c : Config) (da : Bool) :
    impRecv cV { inbox := Frame.raw bytes :: rest, sent := q }
      = some (.error (.NotUtf8Error bytes), { inbox := rest, sent := q })
    ∧ SinkState.recv cV cS
        { socket := { inbox := Frame.raw bytes :: rest, sent := q }, cfg := c }
      = some (.error (.NotUtf8Error bytes),
        { socket := { inbox := rest, sent := q }, cfg := c })
    ∧ (∀ v s, cV.encode v = .ok s →
        SourceState.send cV cS da
          { socket := { inbox := Frame.raw bytes :: rest, sent := q },
            cfg := c } v
        = some (.err (.NotUtf8Error bytes),
          { socket := { inbox := rest, sent := q ++ [.text s] },
            cfg := c })) := by
  refine ⟨rfl, by simp [SinkState.recv, impRecv], ?_⟩
  intro v s hs
  simp [SourceState.send, impSend, impRecv, hs]

theorem c8_non_utf8_frame_error_witness :
    impRecv natCodecW { inbox := [Frame.raw [255, 0]], sent := [] }
      = some (.error (.NotUtf8Error [255, 0]), { inbox := [], sent := [] })
    ∧ SinkState.recv natCodecW strCodecW
        { socket := { inbox := [Frame.raw [255, 0]], sent := [] },
          cfg := Config.default }
      = some (.error (.NotUtf8Error [255, 0]),
        { socket := { inbox := [], sent := [] }, cfg := Config.default })
    ∧ SourceState.send natCodecW strCodecW true
        { socket := { inbox := [Frame.raw [255, 0]], sent := [] },
          cfg := Config.default } 5
      = some (.err (.NotUtf8Error [255, 0]),
        { socket := { inbox := [], sent := [Frame.text "5"] },
          cfg := Config.default }) :=
  ⟨(c8_non_utf8_frame_error natCodecW strCodecW [255, 0] [] []
      Config.default true).1,
   (c8_non_utf8_frame_error natCodecW strCodecW [255, 0] [] []
      Config.default true).2.1,
   (c8_non_utf8_frame_error natCodecW strCodecW [255, 0] [] []
      Config.default true).2.2 5 "5" rfl⟩

/-- Claim C9: for an incoming request whose decode as `V` fails,
`Sink::recv` returns the decode error (as `Error::JsonError`) and
sends no reply frame at all: the sent queue is unchanged, so the
acknowledgment token is not transmitted on the failure path. -/
theorem c9_decode_failure_no_ack {V : Type} (cV : Codec V)
    (cS : Codec String) (s : String) (rest q : List Frame) (c : Config)
    (e : String) (hdec : cV.decode s = .error e) :
    SinkState.recv cV cS
      { socket := { inbox := Frame.text s :: rest, sent := q }, cfg := c }
    = some (.error (.JsonError e),
      { socket := { inbox := rest, sent := q }, cfg := c }) := by
  simp [SinkState.recv, impRecv, hdec]

theorem c9_decode_failure_no_ack_witness :
    SinkState.recv natCodecW strCodecW
      { socket := { inbox := [Frame.text "oops"], sent := [] },
        cfg := Config.default }
    = some (.error (.JsonError "invalid number"),
      { socket := { inbox := [], sent := [] }, cfg := Config.default }) :=
  c9_decode_failure_no_ack natCodecW strCodecW "oops" [] []
    Config.default "invalid number" rfl

/-- A single `Source::send` call never changes the stored config. -/
theorem source_send_cfg_eq {V : Type} (cV : Codec V) (cS : Codec String)
    (da : Bool) (st : SourceState) (v : V) (out : SendOutcome)
    (st' : SourceState)
    (h : SourceState.send cV cS da st v = some (out, st')) :
    st'.cfg = st.cfg := by
  unfold SourceState.send at h
  split at h
  · simp only [Option.some.injEq, Prod.mk.injEq] at h
    exact h.2 ▸ rfl
  · split at h
    · exact absurd h (by simp)
    · simp only [Option.some.injEq, Prod.mk.injEq] at h
      exact h.2 ▸ rfl
    · split at h <;>
        (simp only [Option.some.injEq, Prod.mk.injEq] at h
         exact h.2 ▸ rfl)

/-- A single `Sink::recv` call never changes the stored config. -/
theorem sink_recv_cfg_eq {V : Type} (cV : Codec V) (cS : Codec String)
    (st : SinkState) (r : Except Error V) (st' : SinkState)
    (h : SinkState.recv cV cS st = some (r, st')) :
    st'.cfg = st.cfg := by
  unfold SinkState.recv at h
  split at h
  · exact absurd h (by simp)
  · simp only [Option.some.injEq, Prod.mk.injEq] at h
    exact h.2 ▸ rfl
  · split at h <;>
      (simp only [Option.some.injEq, Prod.mk.injEq] at h
       exact h.2 ▸ rfl)

/-- No sequence of `Source::send` calls changes the stored config. -/
theorem sendSeq_cfg_eq {V : Type} (cV : Codec V) (cS : Codec String)
    (da : Bool) (vs : List V) :
    ∀ st st', SourceState.sendSeq cV cS da st vs = some st' →
      st'.cfg = st.cfg := by
  induction vs with
  | nil =>
    intro st st' h
    simp only [SourceState.sendSeq, Option.some.injEq] at h
    exact h ▸ rfl
  | cons v vs ih =>
    intro st st' h
    unfold SourceState.sendSeq at h
    split at h
    · exact absurd h (by simp)
    · rename_i out stm heq
      exact (ih _ _ h).trans (source_send_cfg_eq cV cS da st v out stm heq)

/-- No sequence of `Sink::recv` calls changes the stored config. -/
theorem recvSeq_cfg_eq {V : Type} (cV : Codec V) (cS : Codec String)
    (n : Nat) :
    ∀ st st', SinkState.recvSeq cV cS st n = some st' →
      st'.cfg = st.cfg := by
  induction n with
  | zero =>
    intro st st' h
    simp only [SinkState.recvSeq, Option.some.injEq] at h
    exact h ▸ rfl
  | succ n ih =>
    intro st st' h
    unfold SinkState.recvSeq at h
    split at h
    · exact absurd h (by simp)
    · rename_i r stm heq
      exact (ih _ _ h).trans (sink_recv_cfg_eq cV cS st r stm heq)

/-- Claim C10: a `Source` or `Sink` constructed from a config `c`
reports exactly `c` through its `config()` accessor, and no sequence
of `send` calls (resp. `recv` calls) on the endpoint changes the
value `config()` returns. -/
theorem c10_config_accessor_invariant {V : Type} (cfg : Config)
    (cV : Codec V) (cS : Codec String) (da : Bool)
    (st st' : SourceState) (stk stk' : SinkState) (vs : List V) (n : Nat)
    (hs : SourceState.sendSeq cV cS da st vs = some st')
    (hk : SinkState.recvSeq cV cS stk n = some stk') :
    (SourceState.from_config cfg).config = cfg
    ∧ (SinkState.from_config cfg).config = cfg
    ∧ st'.config = st.config
    ∧ stk'.config = stk.config :=
  ⟨rfl, rfl, sendSeq_cfg_eq cV cS da vs st st' hs,
   recvSeq_cfg_eq cV cS n stk stk' hk⟩

theorem c10_config_accessor_invariant_witness :
    (SourceState.from_config Config.default).config = Config.default
    ∧ (SinkState.from_config Config.default).config = Config.default
    ∧ (SourceState.config
        { socket := { inbox := [], sent := [Frame.text "5"] },
          cfg := Config.default })
      = (SourceState.config
        { socket := { inbox := [Frame.text "K"], sent := [] },
          cfg := Config.default })
    ∧ (SinkState.config
        { socket := { inbox := [], sent := [Frame.text "K"] },
          cfg := Config.default })
      = (SinkState.config
        { socket := { inbox := [Frame.text "3"], sent := [] },
          cfg := Config.default }) :=
  c10_config_accessor_invariant Config.default natCodecW strCodecW true
    { socket := { inbox := [Frame.text "K"], sent := [] },
      cfg := Config.default }
    { socket := { inbox := [], sent := [Frame.text "5"] },
      cfg := Config.default }
    { socket := { inbox := [Frame.text "3"], sent := [] },
      cfg := Config.default }
    { socket := { inbox := [], sent := [Frame.text "K"] },
      cfg := Config.default }
    [5] 1 rfl rfl

/-! ## Theorems about the config module -/

/-- `Path::parent` on a nonempty component list drops the final
component. -/
theorem rpath_parent_of_ne_nil (ab : Bool) (l : List String) (h : l ≠ []) :
    RPath.parent ⟨ab, l⟩ = some ⟨ab, l.dropLast⟩ := by
  obtain ⟨b, L, rfl⟩ := List.exists_cons_of_ne_nil h
  rfl

/-- `Path::parent` of `dir/fn` is `dir`. -/
theorem rpath_parent_concat (ab : Bool) (dir : List String) (fn : String) :
    RPath.parent ⟨ab, dir ++ [fn]⟩ = some ⟨ab, dir⟩ := by
  rw [rpath_parent_of_ne_nil ab (dir ++ [fn]) (by simp), List.dropLast_concat]

/-- One iteration of the ancestor-walk loop on a candidate `dir/fn`:
the grandparent of the candidate file path is the parent directory of
`dir`, so the next candidate tested is `dir.dropLast/fn` — the walk
visits every ancestor directory in turn, one level per iteration. -/
theorem walkLoop_step (fs : Fs) (fn : String) (dir : List String)
    (hdir : dir ≠ []) :
    walkLoop fs fn ⟨true, dir ++ [fn]⟩ =
      if fs.pathExists ⟨true, dir.dropLast⟩ then
        if fs.pathExists ⟨true, dir.dropLast ++ [fn]⟩ then
          .found ⟨true, dir.dropLast ++ [fn]⟩
        else walkLoop fs fn ⟨true, dir.dropLast ++ [fn]⟩
      else .exhausted := by
  conv_lhs => rw [walkLoop.eq_def]
  split
  · rename_i hp
    rw [rpath_parent_concat] at hp
    exact absurd hp (by simp)
  · rename_i parent hp
    rw [rpath_parent_concat] at hp
    injection hp with hp
    subst hp
    split
    · rename_i hg
      rw [rpath_parent_of_ne_nil true dir hdir] at hg
      exact absurd hg (by simp)
    · rename_i gp hg
      rw [rpath_parent_of_ne_nil true dir hdir] at hg
      injection hg with hg
      subst hg
      simp only [RPath.join]

/-- For a bare filename that does not exist in the working directory,
the resolution reduces to the ancestor walk started at `cwd/fn`,
followed by the home-directory fallback. -/
theorem find_bare_step (fs : Fs) (fn : String)
    (h1 : fs.pathExists ⟨false, [fn]⟩ = false) :
    find_in_ancestor_or_home_dir fs ⟨false, [fn]⟩ =
      match walkLoop fs fn ⟨true, fs.cwd ++ [fn]⟩ with
      | .found p => some p
      | .abort => none
      | .exhausted =>
        match fs.home with
        | none => none
        | some h =>
          if fs.pathExists ⟨true, h ++ [fn]⟩ then some ⟨true, h ++ [fn]⟩
          else none := by
  unfold find_in_ancestor_or_home_dir
  rw [h1, if_neg (by simp)]
  rfl

/-- Claim C3: resolving a filename that exists neither as given, nor
in any ancestor directory, nor in the home directory makes
`Config::parse_toml` return `Error::IoError` (not-found): the `?` on
the failed search propagates the error, so the caller gets an error
rather than the default `Config`.  (The code's own doc comment
promises the default instead.) -/
theorem c3_parse_toml_missing_file_errors (tc : TomlCodec) :
    parse_toml tc fsNoFiles ⟨false, ["missing.toml"]⟩
      = .error (.IoError "NotFound: TOML file") := by
  simp [parse_toml, find_in_ancestor_or_home_dir, walkLoop, Fs.pathExists,
    Fs.resolve, Fs.lookupFile, RPath.parent, RPath.fileName, RPath.join,
    fsNoFiles]

/-- Claim C4 counterexample: in a filesystem where the target
filename `F` exists only in the direct parent `/a/b` of the working
directory `/a/b/c`, the resolution DOES find it — refuting the
claim's assertion that a file only one directory up is not found. -/
theorem c4_parent_file_is_found :
    fsParentOnly.cwd = ["a", "b", "c"]
    ∧ fsParentOnly.files = [(["a", "b", "F"], "x")]
    ∧ find_in_ancestor_or_home_dir fsParentOnly ⟨false, ["F"]⟩
      = some ⟨true, ["a", "b", "F"]⟩ := by
  refine ⟨rfl, rfl, ?_⟩
  simp [find_in_ancestor_or_home_dir, walkLoop, Fs.pathExists, Fs.resolve,
    Fs.lookupFile, RPath.parent, RPath.fileName, RPath.join, fsParentOnly]

/-- Claim C4 (amended): for a bare target filename, the ancestor walk
tests each ancestor directory of the working directory in turn
(parent, grandparent, ...), so a file present only two directories up
is found, and a file present only in the direct parent is found as
well. -/
theorem c4_ancestor_walk_finds_parent_and_grandparent (fs : Fs)
    (fn : String) :
    (fs.pathExists ⟨false, [fn]⟩ = false → fs.cwd ≠ [] →
      fs.pathExists ⟨true, fs.cwd.dropLast⟩ = true →
      fs.pathExists ⟨true, fs.cwd.dropLast ++ [fn]⟩ = true →
      find_in_ancestor_or_home_dir fs ⟨false, [fn]⟩
        = some ⟨true, fs.cwd.dropLast ++ [fn]⟩)
    ∧ (fs.pathExists ⟨false, [fn]⟩ = false → fs.cwd ≠ [] →
      fs.cwd.dropLast ≠ [] →
      fs.pathExists ⟨true, fs.cwd.dropLast⟩ = true →
      fs.pathExists ⟨true, fs.cwd.dropLast ++ [fn]⟩ = false →
      fs.pathExists ⟨true, fs.cwd.dropLast.dropLast⟩ = true →
      fs.pathExists ⟨true, fs.cwd.dropLast.dropLast ++ [fn]⟩ = true →
      find_in_ancestor_or_home_dir fs ⟨false, [fn]⟩
        = some ⟨true, fs.cwd.dropLast.dropLast ++ [fn]⟩) := by
  constructor
  · intro h1 h2 h3 h4
    rw [find_bare_step fs fn h1, walkLoop_step fs fn fs.cwd h2,
      if_pos h3, if_pos h4]
  · intro h1 h2 h2' h3 h4 h5 h6
    rw [find_bare_step fs fn h1, walkLoop_step fs fn fs.cwd h2,
      if_pos h3, if_neg (by simp [h4]),
      walkLoop_step fs fn fs.cwd.dropLast h2', if_pos h5, if_pos h6]

theorem c4_ancestor_walk_finds_parent_and_grandparent_witness :
    find_in_ancestor_or_home_dir fsParentOnly ⟨false, ["F"]⟩
      = some ⟨true, ["a", "b", "F"]⟩
    ∧ find_in_ancestor_or_home_dir fsGrandparentOnly ⟨false, ["F"]⟩
      = some ⟨true, ["a", "F"]⟩ :=
  ⟨(c4_ancestor_walk_finds_parent_and_grandparent fsParentOnly "F").1
      rfl (by decide) rfl rfl,
   (c4_ancestor_walk_finds_parent_and_grandparent fsGrandparentOnly "F").2
      rfl (by decide) (by decide) rfl rfl rfl rfl⟩

/-- Looking up the path just stored finds the stored contents. -/
theorem lookupFile_setFile_self (fs : Fs) (a : List String) (c : String) :
    (fs.setFile a c).lookupFile a = some c := by
  unfold Fs.setFile Fs.lookupFile
  rw [List.find?_cons_of_pos _ (by simp)]
  rfl

/-- After `File::create` stores (empty) contents at the resolved
target, the target path exists. -/
theorem pathExists_setFile_resolve (fs : Fs) (p : RPath) (c : String)
    (hne : ¬(p.absolute = false ∧ p.comps = [])) :
    (fs.setFile (fs.resolve p) c).pathExists p = true := by
  have hcond : (!p.absolute && decide (p.comps = [])) = false := by
    cases hab : p.absolute with
    | true => simp
    | false =>
      simp only [Bool.not_false, Bool.true_and]
      exact decide_eq_false (fun h => hne ⟨hab, h⟩)
  have hres : (fs.setFile (fs.resolve p) c).resolve p = fs.resolve p := rfl
  simp [Fs.pathExists, hcond, hres, lookupFile_setFile_self]

/-- Claim C5: for a target path that did not previously exist,
`write_toml` with `DontOverwrite` does NOT write the encoded payload:
`File::create` creates the file first, so the subsequent
`toml_path.exists()` guard is already true and the call takes the
no-op branch, leaving a created-but-empty file.  (The code's own doc
comment promises the file is written iff it did not previously
exist.) -/
theorem c5_dontoverwrite_fresh_path_writes_empty :
    fsNoFiles.lookupFile (fsNoFiles.resolve ⟨false, ["new.toml"]⟩) = none
    ∧ (write_toml tomlCodecW fsNoFiles Config.default
        ⟨false, ["new.toml"]⟩ .DontOverwrite).1 = .ok ()
    ∧ (write_toml tomlCodecW fsNoFiles Config.default
        ⟨false, ["new.toml"]⟩ .DontOverwrite).2.lookupFile
        (fsNoFiles.resolve ⟨false, ["new.toml"]⟩) = some ""
    ∧ tomlCodecW.encode Config.default
        = .ok "host = \"127.0.0.1\"\nport = 10001\n"
    ∧ ("host = \"127.0.0.1\"\nport = 10001\n" : String) ≠ "" :=
  ⟨rfl, rfl, rfl, rfl, by decide⟩

/-- Claim C6 counterexample: writing with `DontOverwrite` to a path
holding contents `"old"` leaves the file EMPTY afterwards, not
byte-identical to before: `File::create` truncates the file before
the existence check, and the no-op branch then writes nothing. -/
theorem c6_dontoverwrite_truncates_existing :
    fsOldConfig.lookupFile
      (fsOldConfig.resolve ⟨false, ["cfg.toml"]⟩) = some "old"
    ∧ (write_toml tomlCodecW fsOldConfig Config.default
        ⟨false, ["cfg.toml"]⟩ .DontOverwrite).2.lookupFile
        (fsOldConfig.resolve ⟨false, ["cfg.toml"]⟩) = some ""
    ∧ ("" : String) ≠ "old" :=
  ⟨rfl, rfl, by decide⟩

/-- Claim C6 (amended): for a target path whose file already exists,
`write_toml` with `DontOverwrite` truncates the stored contents to
empty (the prior bytes are destroyed by `File::create`) and writes no
payload; with `Overwrite` the stored contents afterwards equal the
new TOML encoding of the config. -/
theorem c6_write_policy_amended (tc : TomlCodec) (fs : Fs) (cfg : Config)
    (path : RPath) (old enc : String)
    (hne : ¬(path.absolute = false ∧ path.comps = []))
    (hold : fs.lookupFile (fs.resolve path) = some old)
    (henc : tc.encode cfg = .ok enc) :
    ((write_toml tc fs cfg path .DontOverwrite).1 = .ok ()
      ∧ (write_toml tc fs cfg path .DontOverwrite).2.lookupFile
          (fs.resolve path) = some "")
    ∧ ((write_toml tc fs cfg path .Overwrite).1 = .ok ()
      ∧ (write_toml tc fs cfg path .Overwrite).2.lookupFile
          (fs.resolve path) = some enc) := by
  have hex := pathExists_setFile_resolve fs path "" hne
  refine ⟨⟨?_, ?_⟩, ?_, ?_⟩
  · simp [write_toml, hex]
  · simp [write_toml, hex, lookupFile_setFile_self]
  · simp [write_toml, henc]
  · simp [write_toml, henc, lookupFile_setFile_self]

theorem c6_write_policy_amended_witness :
    ((write_toml tomlCodecW fsOldConfig Config.default
        ⟨false, ["cfg.toml"]⟩ .DontOverwrite).1 = .ok ()
      ∧ (write_toml tomlCodecW fsOldConfig Config.default
          ⟨false, ["cfg.toml"]⟩ .DontOverwrite).2.lookupFile
          (fsOldConfig.resolve ⟨false, ["cfg.toml"]⟩) = some "")
    ∧ ((write_toml tomlCodecW fsOldConfig Config.default
        ⟨false, ["cfg.toml"]⟩ .Overwrite).1 = .ok ()
      ∧ (write_toml tomlCodecW fsOldConfig Config.default
          ⟨false, ["cfg.toml"]⟩ .Overwrite).2.lookupFile
          (fsOldConfig.resolve ⟨false, ["cfg.toml"]⟩)
        = some "host = \"127.0.0.1\"\nport = 10001\n") :=
  c6_write_policy_amended tomlCodecW fsOldConfig Config.default
    ⟨false, ["cfg.toml"]⟩ "old" "host = \"127.0.0.1\"\nport = 10001\n"
    (by decide) rfl rfl

end IpcChan
